import Mathlib

/-!
Shallow embedding of the UDP sequence-integrity checker
(`feature_test.py`, with the CSV variants of `PCAP_Script.py` where a
claim refers to them).

Modelling conventions:
* A pandas cell that may be `NaN` is an `Option`: `length : Option Nat`
  (`pd.to_numeric(..., errors="coerce")` gives `NaN` on bad input, and a
  `NaN <= 65` comparison is `False`), `data : Option String` (missing
  payload).
* `int(s, 16)` applied to a slice of a hex payload dump is modelled by
  `hexVal?`: `none` on the empty string or any non-hex-digit character,
  otherwise the base-16 value.  (Python's `int` also accepts signs,
  whitespace and underscores; those never occur in slices of tshark hex
  dumps, which are the only strings the scripts feed it.)
* `packets.sort_values(by="Sequence Number")` is modelled by insertion
  sort on the sequence key.  pandas' default quicksort is not stable, so
  the order of records with equal sequence numbers is unspecified in the
  source; no claim depends on it.
* `df.groupby("Source")` iterates keys in sorted order (pandas default
  `sort=True`), modelled by sorting the deduplicated source list.
-/

namespace UdpSeq

/-- One row of the tshark/CSV extraction: frame number, source address,
destination address, frame length (`NaN`-able) and hex payload
(possibly absent). Timestamps are display-only and omitted. -/
structure PacketRecord where
  no : Nat
  source : String
  destination : String
  length : Option Nat
  data : Option String
deriving Repr, DecidableEq

/-- Value of one hexadecimal digit, `none` if the character is not one. -/
def hexDigit? (c : Char) : Option Nat :=
  if '0' ≤ c ∧ c ≤ '9' then some (c.toNat - '0'.toNat)
  else if 'a' ≤ c ∧ c ≤ 'f' then some (c.toNat - 'a'.toNat + 10)
  else if 'A' ≤ c ∧ c ≤ 'F' then some (c.toNat - 'A'.toNat + 10)
  else none

/-- Fold a hex-digit list into a value, `none` on any non-digit. -/
def hexDigitsVal? : List Char → Nat → Option Nat
  | [], acc => some acc
  | c :: cs, acc =>
    match hexDigit? c with
    | some d => hexDigitsVal? cs (16 * acc + d)
    | none => none

/-- `hex_to_decimal` / `int(s, 16)` on a payload slice: `none` for the
empty string or any non-hex-digit character. -/
def hexVal? (s : String) : Option Nat :=
  match s.data with
  | [] => none
  | cs => hexDigitsVal? cs 0

/-- `extract_sequence_number` of `feature_test.py` (lines 39-44): requires
a string payload of at least 28 hex characters, then converts characters
20..27. A missing payload (pandas `NaN`, not a `str`) yields `None`. -/
def extract_sequence_number (hex_data : Option String) : Option Nat :=
  match hex_data with
  | some s => if 28 ≤ s.length then hexVal? ((s.drop 20).take 8) else none
  | none => none

/-- `extract_sequence_number` of the first CSV variant in
`PCAP_Script.py` (lines 118-123): no length guard, `hex_data[20:28]`
silently truncates on short strings and the `try/except` turns any
conversion error into `None`. -/
def extract_sequence_number_csv (hex_data : String) : Option Nat :=
  hexVal? ((hex_data.drop 20).take 8)

/-- Python's `str.startswith`: the prefix's characters are an initial
segment of the string's. -/
def strStartsWith (s pre : String) : Bool :=
  pre.data.isPrefixOf s.data

/-- `df["Data"].str.startswith("3100", na=False)`: a missing payload
counts as not matching. -/
def dataStarts3100 (r : PacketRecord) : Bool :=
  match r.data with
  | some s => strStartsWith s "3100"
  | none => false

/-- `df["Length"] <= 65` inside the malformed-packet mask: a `NaN`
length compares `False`. -/
def lengthAtMost65 (r : PacketRecord) : Bool :=
  match r.length with
  | some n => n ≤ 65
  | none => false

/-- The record survives `extract_pcap_data`'s two filters
(`feature_test.py` lines 85-89): destination must start with `239.50.`
and the record must not be a short `3100`-marked malformed packet. -/
def keepRecord (r : PacketRecord) : Bool :=
  strStartsWith r.destination "239.50." && !(dataStarts3100 r && lengthAtMost65 r)

/-- The malformed-packet filter applied to a record set. -/
def filterRecords (rs : List PacketRecord) : List PacketRecord :=
  rs.filter keepRecord

/-- A record paired with its extracted sequence number, after
`dropna(subset=["Sequence Number"])`. -/
structure SeqRecord where
  no : Nat
  seq : Nat
deriving Repr, DecidableEq

/-- Sequence-number annotation and `dropna`: records whose payload yields
no sequence number are dropped, order preserved
(`feature_test.py` lines 92-101 and 164-166). -/
def annotate (rs : List PacketRecord) : List SeqRecord :=
  rs.filterMap fun r => (extract_sequence_number r.data).map fun n => ⟨r.no, n⟩

/-- The sequence-key order used by `sort_values(by="Sequence Number")`. -/
def seqLE (a b : SeqRecord) : Prop := a.seq ≤ b.seq

instance : DecidableRel seqLE := fun a b => Nat.decLe a.seq b.seq

instance : IsTotal SeqRecord seqLE := ⟨fun a b => Nat.le_total a.seq b.seq⟩

instance : IsTrans SeqRecord seqLE := ⟨fun _ _ _ => Nat.le_trans⟩

/-- `packets.sort_values(by="Sequence Number")` (`feature_test.py`
line 167). -/
def sortBySeq (rs : List SeqRecord) : List SeqRecord :=
  List.insertionSort seqLE rs

/-- One detected discontinuity: the frame at which it was seen, the
expected and actual sequence numbers, and `missing = actual - expected`
(an integer: `-1` for a duplicate). -/
structure GapEvent where
  frameNo : Nat
  expected : Nat
  actual : Nat
  missing : Int
deriving Repr, DecidableEq

/-- The pairwise walk of `feature_test.py` lines 172-178: for each
adjacent pair of the (sorted) list, emit a gap event when the current
sequence number is not the previous plus one. -/
def gapWalk : List SeqRecord → List GapEvent
  | [] => []
  | [_] => []
  | a :: b :: rest =>
    let tail := gapWalk (b :: rest)
    if b.seq = a.seq + 1 then tail
    else ⟨b.no, a.seq + 1, b.seq, (b.seq : Int) - (a.seq + 1 : Nat)⟩ :: tail

/-- The three status strings of the summary sheet:
`✅ All in order`, `❌ Out-of-order detected`, `⚠️ No packets found`. -/
inductive Status where
  | inOrder
  | anomaliesDetected
  | noPackets
deriving Repr, DecidableEq

/-- One `summary.append` row of `detect_sequence_gaps`. The no-packets
row of line 156 carries no source (the script appends a 4-element row
`[group, 0, status, "-"]` there, against 5 columns); gap rows carry
their gap event (rendered as `Expected .., got .., No. ..`). -/
structure SummaryRow where
  destination : String
  source : Option String
  total : Nat
  status : Status
  info : Option GapEvent
deriving Repr, DecidableEq

/-- Analysis of one (destination, source) bucket: the body of the
`for source, packets in grouped` loop (`feature_test.py` lines
161-187). One summary row per gap event, or a single in-order row. -/
def analyzeSource (dest src : String) (packets : List PacketRecord) :
    List SummaryRow :=
  let seqRecs := sortBySeq (annotate packets)
  let gaps := gapWalk seqRecs
  if gaps.isEmpty then
    [⟨dest, some src, seqRecs.length, .inOrder, none⟩]
  else
    gaps.map fun e => ⟨dest, some src, seqRecs.length, .anomaliesDetected, some e⟩

/-- The distinct source addresses of a record list, in sorted order
(pandas `groupby` default `sort=True`). -/
def sourceKeys (rs : List PacketRecord) : List String :=
  List.insertionSort (· ≤ ·) ((rs.map (·.source)).dedup)

/-- Analysis of one selected destination group: the body of the
`for group in selected_groups` loop (`feature_test.py` lines 150-187).
An empty group yields one no-packets row; otherwise each source's
bucket is analyzed. -/
def analyzeGroup (rs : List PacketRecord) (g : String) : List SummaryRow :=
  let groupRecs := rs.filter fun r => r.destination == g
  if groupRecs.isEmpty then
    [⟨g, none, 0, .noPackets, none⟩]
  else
    (sourceKeys groupRecs).flatMap fun src =>
      analyzeSource g src (groupRecs.filter fun r => r.source == src)

/-- `detect_sequence_gaps`: the summary table built over the selected
destination groups (`feature_test.py` lines 146-193). -/
def detect_sequence_gaps (rs : List PacketRecord) (selectedGroups : List String) :
    List SummaryRow :=
  selectedGroups.flatMap (analyzeGroup rs)

/-! ### Concrete scenarios -/

/-- The end-to-end scenario of §8 of the spec: six records for
destination `239.50.1.1` / source `10.1.1.1`, whose payloads carry the
sequence numbers 10, 11, 13, 12, 14 in capture order (hex characters
20..27 are `0000000a` and so on); the sixth payload is too short to
carry one. -/
def c1Records : List PacketRecord :=
  [⟨1, "10.1.1.1", "239.50.1.1", some 100, some "000000000000000000000000000a"⟩,
   ⟨2, "10.1.1.1", "239.50.1.1", some 100, some "000000000000000000000000000b"⟩,
   ⟨3, "10.1.1.1", "239.50.1.1", some 100, some "000000000000000000000000000d"⟩,
   ⟨4, "10.1.1.1", "239.50.1.1", some 100, some "000000000000000000000000000c"⟩,
   ⟨5, "10.1.1.1", "239.50.1.1", some 100, some "000000000000000000000000000e"⟩,
   ⟨6, "10.1.1.1", "239.50.1.1", some 100, some "31"⟩]

/-- A bucket for destination `239.50.2.2` / source `10.0.0.7` whose
payloads carry the sequence numbers 1, 3, 5: the walk over the sorted
bucket finds two gaps. -/
def c3Records : List PacketRecord :=
  [⟨1, "10.0.0.7", "239.50.2.2", some 100, some "0000000000000000000000000001"⟩,
   ⟨2, "10.0.0.7", "239.50.2.2", some 100, some "0000000000000000000000000003"⟩,
   ⟨3, "10.0.0.7", "239.50.2.2", some 100, some "0000000000000000000000000005"⟩]

/-- A bucket for destination `239.50.3.3` / source `10.0.0.9` whose
payloads carry the sequence numbers 1, 2, 2, 3: a duplicated sequence
number amid an otherwise continuous run. -/
def c5Records : List PacketRecord :=
  [⟨1, "10.0.0.9", "239.50.3.3", some 100, some "0000000000000000000000000001"⟩,
   ⟨2, "10.0.0.9", "239.50.3.3", some 100, some "0000000000000000000000000002"⟩,
   ⟨3, "10.0.0.9", "239.50.3.3", some 100, some "0000000000000000000000000002"⟩,
   ⟨4, "10.0.0.9", "239.50.3.3", some 100, some "0000000000000000000000000003"⟩]

/-- A bucket for destination `239.50.4.4` / source `10.0.0.2` whose
payloads carry the sequence numbers 1 and 3: one forward gap. -/
def c6Records : List PacketRecord :=
  [⟨1, "10.0.0.2", "239.50.4.4", some 100, some "0000000000000000000000000001"⟩,
   ⟨2, "10.0.0.2", "239.50.4.4", some 100, some "0000000000000000000000000003"⟩]

/-! ### Claims -/

/-- Gap rows all carry the anomalies-detected status: mapping
`SummaryRow.status` over the per-gap rows gives a constant list. -/
theorem map_status_of_gap_rows (dest src : String) (t : Nat) (gs : List GapEvent) :
    (gs.map fun e =>
        SummaryRow.mk dest (some src) t .anomaliesDetected (some e)).map SummaryRow.status =
      List.replicate gs.length .anomaliesDetected := by
  induction gs with
  | nil => rfl
  | cons g gs ih => simp [List.replicate_succ, ih]

/-- Over a list whose adjacent sequence numbers are nondecreasing, every
emitted gap event has `missing` at least `-1`: the event for the pair
`(a, b)` carries `missing = b.seq - (a.seq + 1) ≥ -1` since
`a.seq ≤ b.seq`. -/
theorem gapWalk_chain_missing_ge (l : List SeqRecord) :
    l.Chain' seqLE → ∀ e ∈ gapWalk l, -1 ≤ e.missing := by
  induction l with
  | nil => intro _ e he; simp [gapWalk] at he
  | cons a rest ih =>
    cases rest with
    | nil => intro _ e he; simp [gapWalk] at he
    | cons b tail =>
      intro hc e he
      have hab : a.seq ≤ b.seq := (List.chain'_cons.mp hc).1
      have htail := (List.chain'_cons.mp hc).2
      simp only [gapWalk] at he
      split at he
      · exact ih htail e he
      · rcases List.mem_cons.mp he with rfl | hmem
        · show (-1 : Int) ≤ (b.seq : Int) - (a.seq + 1 : Nat)
          omega
        · exact ih htail e hmem

/-- C2: a record is excluded by the malformed-packet filter if and only
if its destination address does not start with the multicast string
`239.50.` (the engine hard-codes the default), or its payload starts
with the hex marker `3100` and its frame length is at most 65 bytes.
Stated for records whose length field parsed to a number `n`. -/
theorem C2_filter_excludes_iff (r : PacketRecord) (n : Nat) (h : r.length = some n) :
    keepRecord r = false ↔
      (strStartsWith r.destination "239.50." = false ∨
        (dataStarts3100 r = true ∧ n ≤ 65)) := by
  cases hp : strStartsWith r.destination "239.50." <;>
    cases hm : dataStarts3100 r <;>
      by_cases hn : n ≤ 65 <;>
        simp [keepRecord, lengthAtMost65, h, hp, hm, hn]

/-- C2 witness: a `3100`-marked record of length 60 is excluded (via the
iff), and the same payload with length 200 is retained. -/
theorem C2_filter_excludes_iff_witness :
    keepRecord ⟨1, "10.0.0.7", "239.50.1.1", some 60, some "3100abcd"⟩ = false ∧
      keepRecord ⟨1, "10.0.0.7", "239.50.1.1", some 200, some "3100abcd"⟩ = true := by
  constructor
  · exact (C2_filter_excludes_iff ⟨1, "10.0.0.7", "239.50.1.1", some 60, some "3100abcd"⟩
      60 rfl).mpr (Or.inr ⟨by decide, by decide⟩)
  · decide

/-- C7: the malformed-packet filter is idempotent — filtering its own
output removes nothing further. -/
theorem C7_filter_idempotent (rs : List PacketRecord) :
    filterRecords (filterRecords rs) = filterRecords rs := by
  induction rs with
  | nil => rfl
  | cons r rest ih =>
    by_cases hk : keepRecord r = true <;>
      simp [filterRecords, List.filter, hk] at ih ⊢

/-- C8: for a record whose payload field is absent, the `3100` marker
check is skipped — the filter's verdict reduces to the
destination-prefix check alone. -/
theorem C8_absent_payload_skips_marker (r : PacketRecord) (h : r.data = none) :
    keepRecord r = strStartsWith r.destination "239.50." := by
  simp [keepRecord, dataStarts3100, h]

/-- C8 witness: a short record (length 60) with no payload whose
destination matches the multicast range is retained — absence of
payload alone never triggers the marker-and-length exclusion. -/
theorem C8_absent_payload_skips_marker_witness :
    keepRecord ⟨1, "10.0.0.7", "239.50.1.1", some 60, none⟩ = true :=
  (C8_absent_payload_skips_marker ⟨1, "10.0.0.7", "239.50.1.1", some 60, none⟩ rfl).trans
    (by decide)

/-- C9: the pairwise walk never emits a gap event whose `missing` value
is 0 — an event is emitted only when the current sequence number
differs from the previous plus one. -/
theorem C9_missing_never_zero (l : List SeqRecord) :
    ∀ e ∈ gapWalk l, e.missing ≠ 0 := by
  induction l with
  | nil => intro e he; simp [gapWalk] at he
  | cons a rest ih =>
    cases rest with
    | nil => intro e he; simp [gapWalk] at he
    | cons b tail =>
      intro e he
      simp only [gapWalk] at he
      split at he
      · exact ih e he
      · rcases List.mem_cons.mp he with rfl | hmem
        · show (b.seq : Int) - (a.seq + 1 : Nat) ≠ 0
          rename_i hne
          omega
        · exact ih e hmem

/-- C9 witness: the walk over the bucket `[(1,1),(2,3)]` emits the event
`(frame 2, expected 2, actual 3, missing 1)`, whose `missing` is not 0. -/
theorem C9_missing_never_zero_witness :
    GapEvent.missing ⟨2, 2, 3, 1⟩ ≠ 0 :=
  C9_missing_never_zero [⟨1, 1⟩, ⟨2, 3⟩] ⟨2, 2, 3, 1⟩ (by decide)

/-- C10: because the analyzer walks the bucket sorted by sequence number
ascending, every emitted gap event has `missing ≥ -1`, and the only
negative value that can occur is exactly `-1` (an exact duplicate). -/
theorem C10_sorted_missing_ge_neg_one (rs : List SeqRecord) :
    ∀ e ∈ gapWalk (sortBySeq rs),
      -1 ≤ e.missing ∧ (e.missing < 0 → e.missing = -1) := by
  intro e he
  have hs : List.Sorted seqLE (sortBySeq rs) := List.sorted_insertionSort seqLE rs
  have h1 := gapWalk_chain_missing_ge (sortBySeq rs) (List.Pairwise.chain' hs) e he
  exact ⟨h1, fun h2 => by omega⟩

/-- C10 witness: the duplicate bucket `[(1,5),(2,5)]` emits the event
`(frame 2, expected 6, actual 5, missing -1)`, whose `missing` is at
least `-1`. -/
theorem C10_sorted_missing_ge_neg_one_witness :
    -1 ≤ GapEvent.missing ⟨2, 6, 5, -1⟩ :=
  (C10_sorted_missing_ge_neg_one [⟨1, 5⟩, ⟨2, 5⟩] ⟨2, 6, 5, -1⟩ (by decide)).1

/-- C1 counterexample: on the §8 scenario (sequence numbers
10, 11, 13, 12, 14 in capture order, destination `239.50.1.1`, source
`10.1.1.1`) the engine emits **zero** gap events and a single summary
row with status in-order — not the claimed single gap event
(expected 12, actual 13) with status anomalies-detected. -/
theorem C1_counterexample :
    gapWalk (sortBySeq (annotate c1Records)) = [] ∧
    detect_sequence_gaps c1Records ["239.50.1.1"] =
      [⟨"239.50.1.1", some "10.1.1.1", 5, .inOrder, none⟩] ∧
    Status.inOrder ≠ Status.anomaliesDetected := by
  decide

/-- C1 amended: sorting the bucket by sequence number turns
10, 11, 13, 12, 14 into 10, 11, 12, 13, 14, so the pairwise walk finds
no discontinuity at all: the engine reports zero gap events and one
summary row with total 5 and status in-order; the reordered arrival of
12 after 13 is absorbed entirely. -/
theorem C1_sorted_walk_in_order :
    sortBySeq (annotate c1Records) = [⟨1, 10⟩, ⟨2, 11⟩, ⟨4, 12⟩, ⟨3, 13⟩, ⟨5, 14⟩] ∧
    gapWalk [⟨1, 10⟩, ⟨2, 11⟩, ⟨4, 12⟩, ⟨3, 13⟩, ⟨5, 14⟩] = [] ∧
    detect_sequence_gaps c1Records ["239.50.1.1"] =
      [⟨"239.50.1.1", some "10.1.1.1", 5, .inOrder, none⟩] := by
  decide

/-- C3 counterexample: the bucket `239.50.2.2` / `10.0.0.7` with
sequence numbers 1, 3, 5 yields **two** summary rows, both for that one
bucket — the engine appends one row per gap event, so a bucket can
yield more than one summary row. -/
theorem C3_counterexample :
    (analyzeGroup c3Records "239.50.2.2").length = 2 ∧
    (analyzeGroup c3Records "239.50.2.2").all
      (fun row => row.destination == "239.50.2.2" && row.source == some "10.0.0.7") = true := by
  decide

/-- C3 amended: a bucket whose walk finds no gaps yields exactly one
in-order row; a bucket whose walk finds gaps yields one row per gap
event (so possibly several rows, all carrying that bucket's
destination and source); a selected group that is empty after filtering
yields exactly one no-packets row. -/
theorem C3_amended_row_counts :
    (∀ dest src packets,
      (gapWalk (sortBySeq (annotate packets)) = [] →
        analyzeSource dest src packets =
          [⟨dest, some src, (sortBySeq (annotate packets)).length, .inOrder, none⟩]) ∧
      (analyzeSource dest src packets).length =
        max 1 (gapWalk (sortBySeq (annotate packets))).length ∧
      ∀ row ∈ analyzeSource dest src packets,
        row.destination = dest ∧ row.source = some src) ∧
    (∀ rs g, rs.filter (fun r => r.destination == g) = [] →
      analyzeGroup rs g = [⟨g, none, 0, .noPackets, none⟩]) := by
  constructor
  · intro dest src packets
    refine ⟨fun h => by simp [analyzeSource, h], ?_, ?_⟩
    · cases hg : gapWalk (sortBySeq (annotate packets)) with
      | nil => simp [analyzeSource, hg]
      | cons e es => simp [analyzeSource, hg]
    · intro row hrow
      cases hg : gapWalk (sortBySeq (annotate packets)) with
      | nil =>
        simp [analyzeSource, hg] at hrow
        simp [hrow]
      | cons e es =>
        simp [analyzeSource, hg] at hrow
        rcases hrow with rfl | ⟨e', _, rfl⟩ <;> exact ⟨rfl, rfl⟩
  · intro rs g h
    simp [analyzeGroup, h]

/-- C3 amended witness: an empty bucket's analysis yields the single
in-order row (zero gaps), and an empty group yields the single
no-packets row. -/
theorem C3_amended_row_counts_witness :
    analyzeSource "239.50.2.2" "10.0.0.7" [] =
      [⟨"239.50.2.2", some "10.0.0.7", 0, .inOrder, none⟩] ∧
    analyzeGroup ([] : List PacketRecord) "239.50.9.9" =
      [⟨"239.50.9.9", none, 0, .noPackets, none⟩] :=
  ⟨(C3_amended_row_counts.1 "239.50.2.2" "10.0.0.7" []).1 rfl,
   C3_amended_row_counts.2 [] "239.50.9.9" rfl⟩

/-- C4: divergence of the two extractor variants on a payload of 22 hex
characters (shorter than 28). The CSV variant of `PCAP_Script.py`
(lines 118-123), lacking the length guard, slices characters 20..21
(`7b`) and returns the number 123; the guarded extractor of
`feature_test.py` (lines 39-44) returns absence, as the claim and spec
state. -/
theorem C4_csv_extractor_divergence :
    extract_sequence_number_csv "000000000000000000007b" = some 123 ∧
    extract_sequence_number (some "000000000000000000007b") = none := by
  decide

/-- C5: for the bucket with sequence numbers 1, 2, 2, 3 the analyzer
emits exactly one gap event, with `missing = -1` (the duplicate), and
reports it in one anomalies-detected row; `missing = -1` is not a
forward gap (`missing > 0`), so the two classes are not conflated. -/
theorem C5_duplicate_reported :
    gapWalk (sortBySeq (annotate c5Records)) = [⟨3, 3, 2, -1⟩] ∧
    analyzeSource "239.50.3.3" "10.0.0.9" c5Records =
      [⟨"239.50.3.3", some "10.0.0.9", 4, .anomaliesDetected, some ⟨3, 3, 2, -1⟩⟩] ∧
    GapEvent.missing ⟨3, 3, 2, -1⟩ = -1 ∧ ¬ 0 < GapEvent.missing ⟨3, 3, 2, -1⟩ := by
  decide

/-- C6: the terminal status is no-packets for a selected group that is
empty after filtering, in-order when the walk over the sorted bucket
produces zero gap events, and anomalies-detected (on every row the
bucket produces) otherwise. -/
theorem C6_terminal_status :
    (∀ rs g, rs.filter (fun r => r.destination == g) = [] →
      (analyzeGroup rs g).map SummaryRow.status = [.noPackets]) ∧
    (∀ dest src packets,
      (gapWalk (sortBySeq (annotate packets)) = [] →
        (analyzeSource dest src packets).map SummaryRow.status = [.inOrder]) ∧
      (gapWalk (sortBySeq (annotate packets)) ≠ [] →
        (analyzeSource dest src packets).map SummaryRow.status =
          List.replicate (analyzeSource dest src packets).length .anomaliesDetected ∧
        analyzeSource dest src packets ≠ [])) := by
  constructor
  · intro rs g h
    simp [analyzeGroup, h]
  · intro dest src packets
    constructor
    · intro h
      simp [analyzeSource, h]
    · intro h
      cases hg : gapWalk (sortBySeq (annotate packets)) with
      | nil => exact absurd hg h
      | cons e es =>
        constructor
        · have := map_status_of_gap_rows dest src
            (sortBySeq (annotate packets)).length (e :: es)
          simpa [analyzeSource, hg] using this
        · simp [analyzeSource, hg]

/-- C6 witness: an empty group yields the no-packets status, an empty
bucket yields the in-order status, and the bucket with sequence numbers
1, 3 yields only anomalies-detected rows. -/
theorem C6_terminal_status_witness :
    (analyzeGroup ([] : List PacketRecord) "239.50.8.8").map SummaryRow.status = [.noPackets] ∧
    (analyzeSource "239.50.8.8" "10.0.0.1" []).map SummaryRow.status = [.inOrder] ∧
    (analyzeSource "239.50.4.4" "10.0.0.2" c6Records).map SummaryRow.status =
      List.replicate (analyzeSource "239.50.4.4" "10.0.0.2" c6Records).length
        .anomaliesDetected :=
  ⟨C6_terminal_status.1 [] "239.50.8.8" rfl,
   (C6_terminal_status.2 "239.50.8.8" "10.0.0.1" []).1 rfl,
   ((C6_terminal_status.2 "239.50.4.4" "10.0.0.2" c6Records).2 (by decide)).1⟩

end UdpSeq
